import Mathlib

/-!
# lib2dex — shallow embedding and verification

A shallow embedding of the core of the `lib2dex` repository (a bridge that
reads glucose readings from the LibreView/LibreLinkUp cloud API and
republishes them to Dexcom Share), together with theorems settling the
frozen claims about it.

The embedding follows the JavaScript sources:

* `LibreViewClient` (`_formatReading`, `_request`, `authenticate`,
  `getGlucoseReadings`) — the repository carries near-duplicate revisions
  of this file; where revisions differ the latest revision (the one with
  the `hashedAccountId` header, the `isNaN` timestamp check and the
  base-3 backoff) is embedded, since it is the head revision the spec
  describes.
* `DexcomClient` (`LIBRE_TO_DEXCOM_TREND`, `_formatForDexcom`,
  `uploadReadings`, `authenticate`/`reauthenticate`).
* `Syncer` (`_generateSerialNumber`, `sync`, `_cleanupSyncedTimestamps`).

Network traffic is modelled by explicit response oracles (`Nat → …`
indexed by the number of requests already made); the `async` recursions of
`uploadReadings` and `authenticate` are made total with an explicit fuel
argument, `none` meaning the recursion has not finished within the given
fuel. JavaScript dates are epoch milliseconds (`Int`); `new Date(string)`
is modelled by a `parseDate : String → Option Int` parameter where `none`
is an Invalid Date (`NaN` time value). Dynamically-typed record fields are
modelled by the small JavaScript value type `JVal`.
-/

/-- Decidable equality for `Except`, so that concrete runs of the
fallible models can be checked by `decide`. -/
instance {ε α : Type} [DecidableEq ε] [DecidableEq α] :
    DecidableEq (Except ε α)
  | .ok a, .ok b =>
    if h : a = b then .isTrue (congrArg Except.ok h)
    else .isFalse (fun hh => h (Except.ok.inj hh))
  | .error a, .error b =>
    if h : a = b then .isTrue (congrArg Except.error h)
    else .isFalse (fun hh => h (Except.error.inj hh))
  | .ok _, .error _ => .isFalse (fun hh => Except.noConfusion hh)
  | .error _, .ok _ => .isFalse (fun hh => Except.noConfusion hh)

namespace Lib2Dex

/-- A JavaScript value, as far as the glucose data paths need one:
numbers (integral — the APIs carry integral statuses, trends and mg/dL
values), strings, booleans, `null` and `undefined`. -/
inductive JVal where
  | num (n : Int)
  | str (s : String)
  | bool (b : Bool)
  | null
  | undef
deriving DecidableEq, Repr

/-- JavaScript truthiness of a `JVal` (`0`, `""`, `false`, `null` and
`undefined` are falsy). -/
def JVal.truthy : JVal → Bool
  | .num n => n != 0
  | .str s => s != ""
  | .bool b => b
  | .null => false
  | .undef => false

/-- JavaScript `a || b` on `JVal`. -/
def jsOr (a b : JVal) : JVal := if a.truthy then a else b

/-- JavaScript `a || b` where `a` is a possibly-absent string field
(`none` = the field is `undefined`; the empty string is falsy and also
falls through to `b`). -/
def strOr (a b : Option String) : Option String :=
  match a with
  | some s => if s = "" then b else some s
  | none => b

/-- A canonical glucose reading, as built by
`LibreViewClient._formatReading`: `{ value, trend, timestamp, source }`.
`value` and `trend` come straight from the raw JSON point (the code does
not validate them), so they stay `JVal`; `timestamp` is always a valid
instant (epoch ms) after normalization. -/
structure Reading where
  value : JVal
  trend : JVal
  timestamp : Int
  source : String
deriving DecidableEq, Repr

/-- A raw data point of the LibreView graph payload, restricted to the
fields `_formatReading` inspects: the two timestamp field variants
(strings, `none` = absent), the three value field variants and the two
trend field variants. -/
structure RawPoint where
  Timestamp : Option String
  FactoryTimestamp : Option String
  ValueInMgPerDl : JVal
  Value : JVal
  value : JVal
  TrendArrow : JVal
  trendArrow : JVal
deriving DecidableEq, Repr

/-- `LibreViewClient._formatReading(data)` (head revision): picks
`data.Timestamp || data.FactoryTimestamp`, parses it, substitutes the
current wall-clock time `now` when the result is an Invalid Date
(`isNaN(timestamp.getTime())`) or when no timestamp field is present;
the value is `ValueInMgPerDl || Value || value || 0` and the trend is
`TrendArrow || trendArrow || 4`. -/
def formatReading (parseDate : String → Option Int) (now : Int)
    (d : RawPoint) : Reading :=
  let timestamp : Int :=
    match strOr d.Timestamp d.FactoryTimestamp with
    | some s =>
      match parseDate s with
      | some t => t
      | none => now
    | none => now
  { value := jsOr d.ValueInMgPerDl (jsOr d.Value (jsOr d.value (JVal.num 0)))
    trend := jsOr d.TrendArrow (jsOr d.trendArrow (JVal.num 4))
    timestamp := timestamp
    source := "libreview" }

/-- `String.prototype.startsWith` (used by `_request` to classify an error
as a Cloudflare block by its message). -/
def strStartsWith (s p : String) : Bool := p.data.isPrefixOf s.data

/-- The terminal message `LibreViewClient._request` throws after
exhausting its retry budget. -/
def rateLimitedMsg : String :=
  "LibreView API blocked. Your IP may be temporarily blocked by Cloudflare. Please wait 10-15 minutes and try again."

/-- One `LibreViewClient._request` run: the retry loop
`for (attempt = 1; attempt <= maxRetries; attempt++)` around
`_requestOnce`, which either resolves (`Except.ok`) or rejects with an
error message (`Except.error`); a rejection whose message starts with
`CLOUDFLARE_BLOCKED` sleeps `retryDelayMs * 3 ^ (attempt - 1)` and
retries, any other rejection is rethrown at once, and an exhausted budget
throws `rateLimitedMsg`. The attempt oracle `env` is indexed by the
1-based attempt number. Returns the outcome, the number of attempts made
and the list of backoff sleeps performed (in ms, in order). -/
def requestLoop {α : Type} (env : Nat → Except String α) (delayMs : Nat) :
    Nat → Nat → Except String α × Nat × List Nat
  | _, 0 => (Except.error rateLimitedMsg, 0, [])
  | attempt, remaining + 1 =>
    match env attempt with
    | .ok v => (.ok v, 1, [])
    | .error msg =>
      if strStartsWith msg "CLOUDFLARE_BLOCKED" then
        let delay := delayMs * 3 ^ (attempt - 1)
        let rest := requestLoop env delayMs (attempt + 1) remaining
        (rest.1, rest.2.1 + 1, delay :: rest.2.2)
      else
        (.error msg, 1, [])

/-- `LibreViewClient._request` with the client's configuration:
`maxRetries = 3`, `retryDelayMs = 10000`. -/
def libreRequest {α : Type} (env : Nat → Except String α) :
    Except String α × Nat × List Nat :=
  requestLoop env 10000 1 3

/-- The `data.authTicket` object of a successful login payload. -/
structure AuthTicket where
  token : String
  expires : Int
deriving DecidableEq, Repr

/-- The `data` object of a LibreView login payload: `redirect` truthiness,
the target `region` (absent models `undefined`), the `authTicket` and the
`user.id` field used to derive the account hash. -/
structure LoginData where
  redirect : Bool
  region : Option String
  authTicket : Option AuthTicket
  userId : Option String
deriving DecidableEq, Repr

/-- A parsed login response body: `{ status, data }` (with `data` `null`
or absent modelled as `none`). -/
structure LoginResp where
  status : Int
  data : Option LoginData
deriving DecidableEq, Repr

/-- The session state of `LibreViewClient` that `authenticate` touches. -/
structure LibreState where
  region : String
  baseUrl : String
  token : Option String
  tokenExpiry : Option Int
  hashedAccountId : Option String
deriving DecidableEq, Repr

/-- `LibreViewClient.authenticate` (head revision). The login POSTs are
modelled by the oracle `env`, indexed by the number of login requests
already made; `hashFn` stands for `crypto.createHash('sha256')…digest('hex')`.
On `data.data.redirect` the client rewrites `baseUrl`/`region` to the
indicated region and calls itself again (`return this.authenticate(true)`)
— the recursion is made total by `fuel`, `none` meaning it has not
finished within `fuel` login requests. On success the result carries the
updated state and the total number of login requests made. -/
def libreAuthenticate (hashFn : String → String) (env : Nat → LoginResp) :
    Nat → Nat → LibreState → Option (Except String (LibreState × Nat))
  | 0, _, _ => none
  | fuel + 1, k, st =>
    let r := env k
    match r.data with
    | some d =>
      if d.redirect then
        let newRegion := d.region.getD "undefined"
        libreAuthenticate hashFn env fuel (k + 1)
          { st with
            baseUrl := "api-" ++ newRegion ++ ".libreview.io"
            region := newRegion }
      else if r.status ≠ 0 ∨ d.authTicket = none then
        some (.error "Authentication failed")
      else
        match d.authTicket with
        | some t =>
          some (.ok
            ({ st with
                token := some t.token
                tokenExpiry := some (t.expires * 1000)
                hashedAccountId :=
                  match d.userId with
                  | some uid => some (hashFn uid)
                  | none => st.hashedAccountId },
              k + 1))
        | none => some (.error "Authentication failed")
    | none => some (.error "Authentication failed")

/-- `LIBRE_TO_DEXCOM_TREND`: the JavaScript object literal mapping the
LibreView trend scale 1–7 to the (inverted) Dexcom scale; indexing with
any other key yields `undefined` (`none`). -/
def libreToDexcomTrend (v : Int) : Option Int :=
  if v = 1 then some 7
  else if v = 2 then some 6
  else if v = 3 then some 5
  else if v = 4 then some 4
  else if v = 5 then some 3
  else if v = 6 then some 2
  else if v = 7 then some 1
  else none

/-- The trend computation of `DexcomClient._formatForDexcom`:
`trend = 4` unless `typeof reading.trend === 'number'`, in which case
`trend = LIBRE_TO_DEXCOM_TREND[reading.trend] || 4` (the table's values
are all in 1–7, hence truthy, so `|| 4` fires exactly on the `undefined`
lookup). -/
def mapTrend : JVal → Int
  | .num v => (libreToDexcomTrend v).getD 4
  | _ => 4

/-- A Dexcom EGV wire record, as built by `_formatForDexcom`: the same
instant under three date-wrapper field names, the raw value and the
mapped numeric trend. -/
structure Egv where
  DT : String
  ST : String
  WT : String
  Value : JVal
  Trend : Int
deriving DecidableEq, Repr

/-- `DexcomClient._formatForDexcom(reading)`: `ticks` is the reading's
epoch-millisecond timestamp, wrapped as `/Date(ticks)/` in all three date
fields. -/
def formatForDexcom (r : Reading) : Egv :=
  let ticks := r.timestamp
  { DT := "/Date(" ++ toString ticks ++ ")/"
    ST := "/Date(" ++ toString ticks ++ ")/"
    WT := "/Date(" ++ toString ticks ++ ")/"
    Value := r.value
    Trend := mapTrend r.trend }

/-- `data.replace(/"/g, '')` — removing every quote character from the
bare-quoted-string authentication responses. -/
def stripQuotes (s : String) : String :=
  String.mk (s.data.filter (fun c => c ≠ '\"'))

/-- A Dexcom authentication response as `DexcomClient._request` resolves
it: an HTTP status and the decoded body (`none` models a `null`/empty
body). -/
structure AuthResp where
  status : Int
  data : Option String
deriving DecidableEq, Repr

/-- A Dexcom upload response: the HTTP status and the `Code` field of the
decoded body when the body is an object carrying one (`none` models a
body that is `null` or has no `Code`), which is what
`uploadReadings` inspects. -/
structure UploadResp where
  status : Int
  code : Option String
deriving DecidableEq, Repr

/-- The session state of `DexcomClient`. -/
structure DexState where
  accountId : Option String
  sessionId : Option String
  serialNumber : Option String
deriving DecidableEq, Repr

/-- `DexcomClient._authenticateAccount`: fails on a non-200 status or a
falsy body, otherwise stores the quote-stripped account id. -/
def authenticateAccount (resp : AuthResp) (st : DexState) :
    Except String DexState :=
  if resp.status ≠ 200 ∨ resp.data = none ∨ resp.data = some "" then
    .error "Account authentication failed"
  else
    .ok { st with accountId := some (stripQuotes (resp.data.getD "")) }

/-- `DexcomClient._authenticateSession` as run from `authenticate()`
(the account id is already set by the preceding step): fails on a non-200
status or a falsy body, otherwise stores the quote-stripped session id. -/
def authenticateSession (resp : AuthResp) (st : DexState) :
    Except String DexState :=
  if resp.status ≠ 200 ∨ resp.data = none ∨ resp.data = some "" then
    .error "Session authentication failed"
  else
    .ok { st with sessionId := some (stripQuotes (resp.data.getD "")) }

/-- `DexcomClient.authenticate()`: the two-step flow, account exchange
then session exchange. -/
def dexAuthenticate (acc sess : AuthResp) (st : DexState) :
    Except String DexState :=
  match authenticateAccount acc st with
  | .error e => .error e
  | .ok st1 => authenticateSession sess st1

/-- The `{ uploaded, skipped }` result object of `uploadReadings`. -/
structure UploadResult where
  uploaded : Nat
  skipped : Nat
deriving DecidableEq, Repr

/-- `DexcomClient.uploadReadings(readings)`.

The EGV POSTs are modelled by `upEnv`, indexed by the number of EGV POSTs
already made (`k`); the two authentication POSTs of an `authenticate()`
run are modelled by `authA`/`authS`, indexed by the number of
authentication rounds already run (`j`). `readings = none` models a
`null` argument. The body follows the JavaScript line by line:
`ensureAuthenticated` (authenticate only when no session id is held),
the serial-number guard, the empty-batch early return, the POST, then —
on a 500 whose payload's `Code` is `SessionIdNotFound` —
`reauthenticate()` (clear both ids and rerun the two-step flow) and a
recursive `uploadReadings(readings)` call; on a 429 a 60 s sleep and the
same recursive call; any other non-200 status throws; a 200 returns
`{ uploaded: egvs.length, skipped: 0 }`. The recursion is made total by
`fuel` (each re-entry consumes one unit; `none` means the recursion did
not finish within `fuel` re-entries). The `ok` result also carries the
total number of EGV POSTs made, so that retry counts are observable. -/
def uploadReadings (upEnv : Nat → UploadResp) (authA authS : Nat → AuthResp) :
    Nat → DexState → Option (List Reading) → Nat → Nat →
    Option (Except String (UploadResult × Nat))
  | 0, _, _, _, _ => none
  | fuel + 1, st, readings, k, j =>
    let ensured : Except String (DexState × Nat) :=
      if st.sessionId = none then
        match dexAuthenticate (authA j) (authS j) st with
        | .error e => .error e
        | .ok st1 => .ok (st1, j + 1)
      else .ok (st, j)
    match ensured with
    | .error e => some (.error e)
    | .ok (st1, j1) =>
      if st1.serialNumber = none then
        some (.error "Serial number not set. Call setSerialNumber() first.")
      else
        match readings with
        | none => some (.ok ({ uploaded := 0, skipped := 0 }, k))
        | some [] => some (.ok ({ uploaded := 0, skipped := 0 }, k))
        | some rs =>
          let r := upEnv k
          if r.status = 500 ∧ r.code = some "SessionIdNotFound" then
            match dexAuthenticate (authA j1) (authS j1)
                { st1 with sessionId := none, accountId := none } with
            | .error e => some (.error e)
            | .ok st2 =>
              uploadReadings upEnv authA authS fuel st2 (some rs) (k + 1) (j1 + 1)
          else if r.status = 429 then
            uploadReadings upEnv authA authS fuel st1 (some rs) (k + 1) j1
          else if r.status ≠ 200 then
            some (.error "Failed to upload readings")
          else
            some (.ok ({ uploaded := rs.length, skipped := 0 }, k + 1))

/-- One base-36 digit as `Number.prototype.toString(36)` renders it:
`0`–`9` then lowercase `a`–`z`. -/
def base36DigitChar (d : Nat) : Char :=
  if d < 10 then Char.ofNat (48 + d) else Char.ofNat (87 + d)

/-- `Syncer._generateSerialNumber()`:
`'LB-' + Math.random().toString(36).substring(2, 8).toUpperCase()`.
The `Math.random()` draw is abstracted as its first six base-36
fractional digits, packed into `rand < 36 ^ 6` (`substring(2, 8)` takes
exactly those six digit characters of `"0.…"`); the function renders
them in base 36 and uppercases them. The draw is the only input — the
serial does not depend on any account identity. -/
def generateSerialNumber (rand : Nat) : String :=
  "LB-" ++ String.mk
    (((List.range 6).map
      (fun i => base36DigitChar (rand / 36 ^ (5 - i) % 36))).map Char.toUpper)

/-- The serial-number choice of the `Syncer` constructor:
`config.serialNumber || this._generateSerialNumber()` (an absent or empty
configured serial is falsy and falls through to the generator). -/
def chooseSerial (cfgSerial : Option String) (rand : Nat) : String :=
  match cfgSerial with
  | some s => if s = "" then generateSerialNumber rand else s
  | none => generateSerialNumber rand

/-- The serial number the `Syncer` constructor assigns to the Dexcom
client, as a function of everything an initialization run could feed it:
the destination username (`config.dexcomUsername`), the configured serial
and the `Math.random()` draw. The constructor never reads the username
when choosing the serial. -/
def syncerSerial (_dexcomUsername : String) (cfgSerial : Option String)
    (rand : Nat) : String :=
  chooseSerial cfgSerial rand

/-- The `Syncer.stats` record. -/
structure SyncStats where
  totalSynced : Nat
  totalSkipped : Nat
  errors : Nat
  lastSync : Option Int
  lastError : Option String
deriving DecidableEq, Repr

/-- The mutable `Syncer` state a sync cycle touches: the deduplication
set `syncedTimestamps` (a JavaScript `Set` of epoch values, kept in
insertion order) and the statistics. -/
structure SyncerState where
  syncedTimestamps : List Int
  stats : SyncStats
deriving DecidableEq, Repr

/-- The `{ synced, skipped }` result of one `Syncer.sync()` cycle. -/
structure SyncResult where
  synced : Nat
  skipped : Nat
deriving DecidableEq, Repr

/-- `Set.prototype.add`: append, unless already present. -/
def setAdd (s : List Int) (x : Int) : List Int :=
  if x ∈ s then s else s ++ [x]

/-- `Syncer._cleanupSyncedTimestamps()`: delete every entry `ts` with
`ts < Date.now() - 24*60*60*1000`. -/
def cleanupSyncedTimestamps (now : Int) (s : List Int) : List Int :=
  s.filter (fun ts => !decide (ts < now - 86400000))

/-- `Syncer.sync()` — one cycle. The LibreView fetch is the already-run
`getGlucoseReadings()` outcome `fetch` (an exception or the reading
list); the Dexcom upload is the oracle `upload` applied to the batch the
cycle posts. Mirrors the JavaScript `try`/`catch`: an exception from the
fetch or the upload increments `stats.errors`, records
`stats.lastError` and rethrows (first component `.error`), leaving
`syncedTimestamps` untouched; otherwise the cycle filters out
already-synced timestamps, caps the batch at `maxReadings`, uploads,
marks the batch's timestamps as synced, purges entries older than 24
hours and updates the statistics. -/
def sync (now : Int) (fetch : Except String (List Reading))
    (upload : List Reading → Except String UploadResult)
    (maxReadings : Nat) (st : SyncerState) :
    Except String SyncResult × SyncerState :=
  match fetch with
  | .error e =>
    (.error e,
      { st with stats :=
        { st.stats with errors := st.stats.errors + 1, lastError := some e } })
  | .ok readings =>
    if readings.length = 0 then
      (.ok { synced := 0, skipped := 0 },
        { st with stats := { st.stats with lastSync := some now } })
    else
      let newReadings :=
        readings.filter (fun r => !(st.syncedTimestamps.contains r.timestamp))
      let toSync := newReadings.take maxReadings
      if toSync.length = 0 then
        (.ok { synced := 0, skipped := readings.length },
          { st with stats := { st.stats with lastSync := some now } })
      else
        match upload toSync with
        | .error e =>
          (.error e,
            { st with stats :=
              { st.stats with
                errors := st.stats.errors + 1, lastError := some e } })
        | .ok result =>
          let marked :=
            toSync.foldl (fun s r => setAdd s r.timestamp) st.syncedTimestamps
          let cleaned := cleanupSyncedTimestamps now marked
          (.ok { synced := result.uploaded
                 skipped := readings.length - toSync.length },
            { syncedTimestamps := cleaned
              stats :=
              { st.stats with
                totalSynced := st.stats.totalSynced + result.uploaded
                totalSkipped :=
                  st.stats.totalSkipped + (readings.length - toSync.length)
                lastSync := some now } })

/-! ## Concrete fixtures used by counterexamples and witnesses -/

/-- A Dexcom client state with both identifiers and a serial held. -/
def dexSt0 : DexState :=
  { accountId := some "acct", sessionId := some "sess", serialNumber := some "SN123" }

/-- An account-authentication oracle that always succeeds. -/
def authAok : Nat → AuthResp := fun _ => { status := 200, data := some "acct" }

/-- A session-authentication oracle that always succeeds. -/
def authSok : Nat → AuthResp := fun _ => { status := 200, data := some "sess" }

/-- The HTTP 500 response whose payload names `SessionIdNotFound`. -/
def snfResp : UploadResp := { status := 500, code := some "SessionIdNotFound" }

/-- A plain 200 upload response. -/
def okResp : UploadResp := { status := 200, code := none }

/-- A server that answers session-not-found on every upload attempt. -/
def snfAlways : Nat → UploadResp := fun _ => snfResp

/-- A server that answers session-not-found on the first three upload
attempts and succeeds on the fourth. -/
def snfThrice : Nat → UploadResp := fun k => if k < 3 then snfResp else okResp

/-- A server that answers session-not-found once and then succeeds. -/
def snfOnce : Nat → UploadResp := fun k => if k = 0 then snfResp else okResp

/-- A server that accepts every upload. -/
def okEnv : Nat → UploadResp := fun _ => okResp

/-- A sample canonical reading. -/
def sampleReading : Reading :=
  { value := JVal.num 120, trend := JVal.num 4
    timestamp := 1700000000000, source := "libreview" }

/-- A freshly-constructed LibreView client state (no region configured). -/
def libreSt0 : LibreState :=
  { region := "", baseUrl := "api.libreview.io"
    token := none, tokenExpiry := none, hashedAccountId := none }

/-- A login response that signals a regional redirect to `reg`. -/
def redirectResp (reg : String) : LoginResp :=
  { status := 0
    data := some
      { redirect := true, region := some reg, authTicket := none, userId := none } }

/-- A successful login response (no redirect). -/
def loginOk : LoginResp :=
  { status := 0
    data := some
      { redirect := false, region := none
        authTicket := some { token := "tok", expires := 100 }, userId := none } }

/-- A login oracle that redirects on the first two attempts and succeeds
on the third. -/
def envTwoRedirects : Nat → LoginResp :=
  fun k => if k = 0 then redirectResp "eu" else
    if k = 1 then redirectResp "us" else loginOk

/-- A login oracle that signals a redirect on every attempt. -/
def envAllRedirect : Nat → LoginResp := fun _ => redirectResp "eu"

/-- A login oracle that redirects once and then succeeds. -/
def envOneRedirect : Nat → LoginResp :=
  fun k => if k = 0 then redirectResp "eu" else loginOk

/-- A raw point whose only timestamp field holds an unparseable string. -/
def badTsPoint : RawPoint :=
  { Timestamp := some "not-a-date", FactoryTimestamp := none
    ValueInMgPerDl := JVal.num 100, Value := JVal.undef, value := JVal.undef
    TrendArrow := JVal.num 4, trendArrow := JVal.undef }

/-- A raw point whose trend field holds 9 — truthy, numeric, outside the
1–7 scale. -/
def badTrendPoint : RawPoint :=
  { Timestamp := none, FactoryTimestamp := none
    ValueInMgPerDl := JVal.num 100, Value := JVal.undef, value := JVal.undef
    TrendArrow := JVal.num 9, trendArrow := JVal.undef }

/-- An upload oracle for the syncer that accepts every batch and reports
the batch length, as `DexcomClient.uploadReadings` does on success. -/
def uploadOk : List Reading → Except String UploadResult :=
  fun b => .ok { uploaded := b.length, skipped := 0 }

/-- A freshly-constructed syncer state: empty dedup set, zeroed stats. -/
def syncSt0 : SyncerState :=
  { syncedTimestamps := []
    stats :=
      { totalSynced := 0, totalSkipped := 0, errors := 0
        lastSync := none, lastError := none } }

/-- Fifteen canonical readings with pairwise distinct, fresh timestamps,
newest first. -/
def fifteenReadings : List Reading :=
  (List.range 15).map
    (fun i =>
      { value := JVal.num 100, trend := JVal.num 4
        timestamp := (1500 : Int) - i, source := "libreview" })

/-- A raw point with no trend field at all (both variants `undefined`). -/
def quietTrendPoint : RawPoint :=
  { Timestamp := none, FactoryTimestamp := none
    ValueInMgPerDl := JVal.num 100, Value := JVal.undef, value := JVal.undef
    TrendArrow := JVal.undef, trendArrow := JVal.undef }

/-- The syncer state after one cycle whose fetch threw `"boom"` starting
from `syncSt0`. -/
def errSt : SyncerState :=
  { syncedTimestamps := []
    stats :=
      { totalSynced := 0, totalSkipped := 0, errors := 1
        lastSync := none, lastError := some "boom" } }

/-! ## Helper lemmas -/

/-- Whenever a terminating `uploadReadings` run returns successfully on a
(possibly empty) batch, the reported `uploaded` count is the batch's
length — the count is never taken from the server's response. -/
theorem uploadReadings_ok_count (upEnv : Nat → UploadResp)
    (authA authS : Nat → AuthResp) (rs : List Reading) :
    ∀ (fuel k j : Nat) (st : DexState) (r : UploadResult) (n : Nat),
      uploadReadings upEnv authA authS fuel st (some rs) k j
        = some (.ok (r, n)) →
      r.uploaded = rs.length := by
  rcases rs with _ | ⟨a, l⟩
  · intro fuel k j st r n h
    cases fuel with
    | zero => simp [uploadReadings] at h
    | succ fuel =>
      simp only [uploadReadings] at h
      split at h
      · simp at h
      · split at h
        · simp at h
        · simp only [Option.some.injEq] at h
          obtain ⟨h1, h2⟩ := (Prod.mk.injEq _ _ _ _).mp (Except.ok.inj h)
          rw [← h1]
          rfl
  · intro fuel
    induction fuel with
    | zero => intro k j st r n h; simp [uploadReadings] at h
    | succ fuel ih =>
      intro k j st r n h
      simp only [uploadReadings] at h
      split at h
      · simp at h
      · split at h
        · simp at h
        · split at h
          · split at h
            · simp at h
            · exact ih _ _ _ _ _ h
          · split at h
            · exact ih _ _ _ _ _ h
            · split at h
              · simp at h
              · simp only [Option.some.injEq] at h
                obtain ⟨h1, h2⟩ := (Prod.mk.injEq _ _ _ _).mp (Except.ok.inj h)
                rw [← h1]

/-- Marking a batch of readings in the dedup set (`Set.prototype.add` in
insertion order) appends exactly the batch's timestamps when none of them
is already present and they are pairwise distinct. -/
theorem foldl_setAdd_eq (l : List Reading) : ∀ acc : List Int,
    (∀ r ∈ l, r.timestamp ∉ acc) → (l.map Reading.timestamp).Nodup →
    l.foldl (fun s r => setAdd s r.timestamp) acc = acc ++ l.map Reading.timestamp := by
  induction l with
  | nil => intro acc _ _; simp
  | cons r t ih =>
    intro acc hnm hnd
    have h0 : r.timestamp ∉ acc := hnm r (List.mem_cons_self r t)
    have hadd : setAdd acc r.timestamp = acc ++ [r.timestamp] := by
      simp [setAdd, h0]
    have hnd' : (t.map Reading.timestamp).Nodup :=
      (List.nodup_cons.mp (by simpa using hnd)).2
    have hhead : r.timestamp ∉ t.map Reading.timestamp :=
      (List.nodup_cons.mp (by simpa using hnd)).1
    have hnm' : ∀ x ∈ t, x.timestamp ∉ acc ++ [r.timestamp] := by
      intro x hx
      simp only [List.mem_append, List.mem_singleton]
      rintro (h | h)
      · exact hnm x (List.mem_cons_of_mem r hx) h
      · exact hhead (h ▸ List.mem_map_of_mem Reading.timestamp hx)
    calc (r :: t).foldl (fun s x => setAdd s x.timestamp) acc
        = t.foldl (fun s x => setAdd s x.timestamp) (acc ++ [r.timestamp]) := by
          rw [List.foldl_cons, hadd]
      _ = (acc ++ [r.timestamp]) ++ t.map Reading.timestamp := ih _ hnm' hnd'
      _ = acc ++ (r :: t).map Reading.timestamp := by simp

/-! ## Claims -/

/-- Claim C3, counterexample: the claim says two initialization runs with
the same destination username and no configured serial produce the same
serial number. They do not: the serial is built from the `Math.random()`
draw alone, so two runs of the fixed username `user@example.com` whose
draws differ (here the six-digit draws 0 and 1) produce different
serials. -/
theorem c3_counterexample :
    syncerSerial "user@example.com" none 0 ≠ syncerSerial "user@example.com" none 1 := by
  decide

/-- Claim C3 (amended): when no serial number is configured the serial the
`Syncer` constructor assigns is `LB-` followed by six pseudo-random
base-36 characters taken from the `Math.random()` draw; it is a function
of that draw alone — the destination username is never consulted — so it
coincides across runs only when the draw does, not because of the account
identity. -/
theorem c3_serial_random_not_account_derived :
    (∀ (u u' : String) (cfg : Option String) (rand : Nat),
      syncerSerial u cfg rand = syncerSerial u' cfg rand) ∧
    syncerSerial "user@example.com" none 0 = "LB-000000" ∧
    syncerSerial "user@example.com" none 1 = "LB-000001" :=
  ⟨fun _ _ _ _ => rfl, by decide, by decide⟩

/-- Claim C4: a raw point whose timestamp field is present but
unparseable (the date parse yields an Invalid Date) is normalized with
the current wall-clock time `now` — a valid instant — and
`_formatReading` returns a reading rather than failing. -/
theorem c4_unparseable_timestamp_uses_now (pd : String → Option Int)
    (now : Int) (d : RawPoint) (s : String)
    (hs : strOr d.Timestamp d.FactoryTimestamp = some s)
    (hbad : pd s = none) :
    (formatReading pd now d).timestamp = now := by
  simp [formatReading, hs, hbad]

/-- Witness for C4: the concrete point with timestamp `"not-a-date"` and
a parser that rejects it. -/
theorem c4_witness :
    (formatReading (fun _ => none) 123 badTsPoint).timestamp = 123 :=
  c4_unparseable_timestamp_uses_now (fun _ => none) 123 badTsPoint
    "not-a-date" (by decide) rfl

/-- Claim C8: the trend mapping of `_formatForDexcom` sends every integer
trend `v` in 1–7 to `8 - v` (so applying it twice is the identity on
1–7), sends every integer outside 1–7 to the stable code 4, and sends
every non-numeric trend to 4; the wire record's `Trend` field is exactly
this mapping of the canonical reading's trend. -/
theorem c8_trend_mapping :
    (∀ v : Int, 1 ≤ v → v ≤ 7 →
      mapTrend (JVal.num v) = 8 - v ∧
      mapTrend (JVal.num (mapTrend (JVal.num v))) = v) ∧
    (∀ v : Int, ¬(1 ≤ v ∧ v ≤ 7) → mapTrend (JVal.num v) = 4) ∧
    (∀ r : Reading, (formatForDexcom r).Trend = mapTrend r.trend) ∧
    (∀ s : String, mapTrend (JVal.str s) = 4) ∧
    (∀ b : Bool, mapTrend (JVal.bool b) = 4) ∧
    mapTrend JVal.null = 4 ∧ mapTrend JVal.undef = 4 := by
  refine ⟨?_, ?_, fun r => rfl, fun s => rfl, fun b => rfl, rfl, rfl⟩
  · intro v h1 h7
    have hv : v = 1 ∨ v = 2 ∨ v = 3 ∨ v = 4 ∨ v = 5 ∨ v = 6 ∨ v = 7 := by omega
    rcases hv with h | h | h | h | h | h | h <;> subst h <;>
      exact ⟨by decide, by decide⟩
  · intro v hv
    have hd : v < 1 ∨ 7 < v := by
      by_contra hc
      push_neg at hc
      exact hv ⟨hc.1, hc.2⟩
    have h1 : v ≠ 1 := by rcases hd with h | h <;> omega
    have h2 : v ≠ 2 := by rcases hd with h | h <;> omega
    have h3 : v ≠ 3 := by rcases hd with h | h <;> omega
    have h4 : v ≠ 4 := by rcases hd with h | h <;> omega
    have h5 : v ≠ 5 := by rcases hd with h | h <;> omega
    have h6 : v ≠ 6 := by rcases hd with h | h <;> omega
    have h7 : v ≠ 7 := by rcases hd with h | h <;> omega
    simp [mapTrend, libreToDexcomTrend, h1, h2, h3, h4, h5, h6, h7]

/-- Witness for C8: the mapping at the concrete trend 2 and back. -/
theorem c8_witness :
    mapTrend (JVal.num 2) = 6 ∧ mapTrend (JVal.num (mapTrend (JVal.num 2))) = 2 ∧
    mapTrend (JVal.num 9) = 4 :=
  ⟨(c8_trend_mapping.1 2 (by norm_num) (by norm_num)).1,
   (c8_trend_mapping.1 2 (by norm_num) (by norm_num)).2,
   c8_trend_mapping.2.1 9 (by omega)⟩

/-- Claim C9, counterexample: the claim says the canonical trend is
always an integer in 1–7, with 4 substituted for malformed input. But
`_formatReading` computes `TrendArrow || trendArrow || 4`, so any truthy
raw trend passes through unvalidated: a raw point with `TrendArrow: 9`
yields a canonical trend of 9, not 4. -/
theorem c9_counterexample :
    (formatReading (fun _ => none) 0 badTrendPoint).trend = JVal.num 9 ∧
    (formatReading (fun _ => none) 0 badTrendPoint).trend ≠ JVal.num 4 := by
  decide

/-- Claim C9 (amended): the canonical trend defaults to 4 exactly when
both raw trend field variants are falsy (absent, `0`, `null`, empty);
any truthy `TrendArrow` — numeric or not, in range or not — is passed
through as the canonical trend unvalidated, so the canonical trend is
not guaranteed to be an integer in 1–7. -/
theorem c9_trend_passthrough (pd : String → Option Int) (now : Int)
    (d : RawPoint) :
    (d.TrendArrow.truthy = false → d.trendArrow.truthy = false →
      (formatReading pd now d).trend = JVal.num 4) ∧
    (d.TrendArrow.truthy = true → (formatReading pd now d).trend = d.TrendArrow) := by
  constructor
  · intro h1 h2
    simp [formatReading, jsOr, h1, h2]
  · intro h1
    simp [formatReading, jsOr, h1]

/-- Witness for C9 (amended): the out-of-range trend 9 passes through;
a point with no trend fields gets the default 4. -/
theorem c9_witness :
    (formatReading (fun _ => none) 5 badTrendPoint).trend = badTrendPoint.TrendArrow ∧
    (formatReading (fun _ => none) 5 quietTrendPoint).trend = JVal.num 4 :=
  ⟨(c9_trend_passthrough (fun _ => none) 5 badTrendPoint).2 (by decide),
   (c9_trend_passthrough (fun _ => none) 5 quietTrendPoint).1 (by decide) (by decide)⟩

/-- With a server that answers session-not-found on every upload attempt
(and authentication always succeeding), `uploadReadings` re-enters itself
after every reauthentication and never returns, whatever the fuel. -/
theorem uploadReadings_snfAlways_diverges :
    ∀ fuel k j,
      uploadReadings snfAlways authAok authSok fuel dexSt0
        (some [sampleReading]) k j = none := by
  intro fuel
  induction fuel with
  | zero => intro k j; rfl
  | succ fuel ih =>
    intro k j
    have hstep :
        uploadReadings snfAlways authAok authSok (fuel + 1) dexSt0
          (some [sampleReading]) k j =
        uploadReadings snfAlways authAok authSok fuel dexSt0
          (some [sampleReading]) (k + 1) (j + 1) := rfl
    rw [hstep]
    exact ih (k + 1) (j + 1)

/-- Claim C1, counterexample: the claim says a session-not-found answer
makes `uploadReadings` reauthenticate and retry the identical batch at
most once more (at most 2 EGV POSTs per call). Against a server that
answers session-not-found on the first three attempts and accepts the
fourth, the call instead retries three times and succeeds after 4 EGV
POSTs. -/
theorem c1_counterexample :
    uploadReadings snfThrice authAok authSok 10 dexSt0
      (some [sampleReading]) 0 0
      = some (.ok ({ uploaded := 1, skipped := 0 }, 4)) := by
  decide

/-- Claim C1 (amended): on an HTTP 500 whose payload names
session-not-found, `uploadReadings` reauthenticates and retries the
identical batch, but with no cap on the recursion depth: a single
session-not-found answer followed by success is recovered transparently
(2 POSTs), while a server that answers session-not-found on every attempt
makes the call recurse forever — for every fuel bound the recursion is
still running — so `uploadReadings` does not terminate in that case. -/
theorem c1_unbounded_session_retry :
    uploadReadings snfOnce authAok authSok 10 dexSt0
      (some [sampleReading]) 0 0
      = some (.ok ({ uploaded := 1, skipped := 0 }, 2)) ∧
    ∀ fuel k j,
      uploadReadings snfAlways authAok authSok fuel dexSt0
        (some [sampleReading]) k j = none :=
  ⟨by decide, uploadReadings_snfAlways_diverges⟩

/-- With a login endpoint that signals a regional redirect on every
attempt, `authenticate` rewrites its host and calls itself again, never
returning, whatever the fuel. -/
theorem libreAuthenticate_allRedirect_diverges (hashFn : String → String) :
    ∀ fuel k st, libreAuthenticate hashFn envAllRedirect fuel k st = none := by
  intro fuel
  induction fuel with
  | zero => intro k st; rfl
  | succ fuel ih =>
    intro k st
    have hstep :
        libreAuthenticate hashFn envAllRedirect (fuel + 1) k st =
        libreAuthenticate hashFn envAllRedirect fuel (k + 1)
          { st with baseUrl := "api-eu.libreview.io", region := "eu" } := rfl
    rw [hstep]
    exact ih (k + 1) _

/-- Claim C2, counterexample: the claim says `authenticate` retries after
a redirect exactly once, and a stream that redirects again on the retry
makes it fail (hop count capped at 1). Against a login endpoint that
redirects on the first two attempts and succeeds on the third, the client
instead follows both redirects and succeeds after 3 login POSTs ending on
the `us` host. -/
theorem c2_counterexample :
    libreAuthenticate id envTwoRedirects 10 0 libreSt0
      = some (.ok
        ({ region := "us", baseUrl := "api-us.libreview.io"
           token := some "tok", tokenExpiry := some 100000
           hashedAccountId := none }, 3)) := by
  decide

/-- Claim C2 (amended): on a regional redirect `authenticate` switches
its target host to the indicated region and retries, but with no cap on
the number of hops: a single redirect is followed by a successful retry
on the new host (2 login POSTs), while a response stream that signals a
redirect on every attempt makes `authenticate` recurse forever — for
every fuel bound the recursion is still running — rather than fail. -/
theorem c2_unbounded_redirect :
    libreAuthenticate id envOneRedirect 10 0 libreSt0
      = some (.ok
        ({ region := "eu", baseUrl := "api-eu.libreview.io"
           token := some "tok", tokenExpiry := some 100000
           hashedAccountId := none }, 2)) ∧
    ∀ (hashFn : String → String) (fuel k : Nat) (st : LibreState),
      libreAuthenticate hashFn envAllRedirect fuel k st = none :=
  ⟨by decide, libreAuthenticate_allRedirect_diverges⟩

/-- Claim C5: a request whose every attempt is classified as blocked
makes exactly `maxRetries = 3` attempts, sleeping
`retryDelayMs * 3 ^ (attempt - 1)` between them (10 s, 30 s, 90 s for the
configured 10-second base), and then throws the terminal rate-limited
error; a non-blocked failure on the first attempt aborts at once — one
attempt, no sleep — rethrowing the original error. -/
theorem c5_transport_retry {α : Type} (env env2 : Nat → Except String α)
    (m : String)
    (hb : ∀ k, 1 ≤ k → k ≤ 3 →
      ∃ d, env k = .error d ∧ strStartsWith d "CLOUDFLARE_BLOCKED" = true)
    (hf : env2 1 = .error m)
    (hm : strStartsWith m "CLOUDFLARE_BLOCKED" = false) :
    libreRequest env = (.error rateLimitedMsg, 3, [10000, 30000, 90000]) ∧
    libreRequest env2 = (.error m, 1, []) := by
  obtain ⟨d1, e1, s1⟩ := hb 1 (by norm_num) (by norm_num)
  obtain ⟨d2, e2, s2⟩ := hb 2 (by norm_num) (by norm_num)
  obtain ⟨d3, e3, s3⟩ := hb 3 (by norm_num) (by norm_num)
  constructor
  · simp [libreRequest, requestLoop, e1, e2, e3, s1, s2, s3]
  · simp [libreRequest, requestLoop, hf, hm]

/-- Witness for C5: a stream of Cloudflare-blocked rejections, and a
parse failure on the first attempt. -/
theorem c5_witness :
    libreRequest (fun _ => (Except.error "CLOUDFLARE_BLOCKED:429:x" : Except String Unit))
      = (.error rateLimitedMsg, 3, [10000, 30000, 90000]) ∧
    libreRequest (fun _ => (Except.error "Failed to parse response: x" : Except String Unit))
      = (.error "Failed to parse response: x", 1, []) :=
  c5_transport_retry
    (fun _ => (Except.error "CLOUDFLARE_BLOCKED:429:x" : Except String Unit))
    (fun _ => .error "Failed to parse response: x")
    "Failed to parse response: x"
    (fun _ _ _ => ⟨"CLOUDFLARE_BLOCKED:429:x", rfl, by decide⟩)
    rfl (by decide)

/-- Claim C10: whenever `uploadReadings` returns successfully, the
reported `uploaded` count is the length of the input batch (never a
server-reported acceptance count); and on a `null` or empty input the
call returns `uploaded = 0` having made no EGV POST (the post counter is
returned unchanged). -/
theorem c10_uploaded_equals_batch_size (upEnv upEnv2 : Nat → UploadResp)
    (authA authS authA2 authS2 : Nat → AuthResp) (rs : List Reading)
    (fuel k j fuel2 k2 j2 : Nat) (st st2 : DexState)
    (r : UploadResult) (n : Nat) (sid sn : String)
    (hok : uploadReadings upEnv authA authS fuel st (some rs) k j
      = some (.ok (r, n)))
    (hsid : st2.sessionId = some sid) (hsn : st2.serialNumber = some sn) :
    r.uploaded = rs.length ∧
    uploadReadings upEnv2 authA2 authS2 (fuel2 + 1) st2 none k2 j2
      = some (.ok ({ uploaded := 0, skipped := 0 }, k2)) ∧
    uploadReadings upEnv2 authA2 authS2 (fuel2 + 1) st2 (some []) k2 j2
      = some (.ok ({ uploaded := 0, skipped := 0 }, k2)) := by
  refine ⟨uploadReadings_ok_count upEnv authA authS rs fuel k j st r n hok,
    ?_, ?_⟩
  · simp [uploadReadings, hsid, hsn]
  · simp [uploadReadings, hsid, hsn]

/-- Witness for C10: a two-reading batch accepted at once reports
`uploaded = 2`; a `null` and an empty batch report `uploaded = 0` with
no EGV POST made. -/
theorem c10_witness :
    (UploadResult.mk 2 0).uploaded = ([sampleReading, sampleReading] : List Reading).length ∧
    uploadReadings okEnv authAok authSok (0 + 1) dexSt0 none 5 7
      = some (.ok ({ uploaded := 0, skipped := 0 }, 5)) ∧
    uploadReadings okEnv authAok authSok (0 + 1) dexSt0 (some []) 5 7
      = some (.ok ({ uploaded := 0, skipped := 0 }, 5)) :=
  c10_uploaded_equals_batch_size okEnv okEnv authAok authSok authAok authSok
    [sampleReading, sampleReading] 3 0 0 0 5 7 dexSt0 dexSt0
    ⟨2, 0⟩ 1 "sess" "SN123" (by decide) rfl rfl

/-- Claim C6: if a sync cycle's result is an exception — thrown by the
fetch or by the upload, i.e. before the upload completed — the
deduplication set is left exactly as it was, the error counter is
incremented by one, the thrown message is recorded as the last error, and
the same exception is the cycle's result (it propagates). -/
theorem c6_cycle_error_preserves_dedup (now : Int)
    (fetch : Except String (List Reading))
    (upload : List Reading → Except String UploadResult)
    (maxReadings : Nat) (st st' : SyncerState) (e : String)
    (h : sync now fetch upload maxReadings st = (.error e, st')) :
    st'.syncedTimestamps = st.syncedTimestamps ∧
    st'.stats.errors = st.stats.errors + 1 ∧
    st'.stats.lastError = some e := by
  rcases fetch with e0 | readings
  · simp only [sync] at h
    rw [Prod.ext_iff] at h
    obtain ⟨h1, h2⟩ := h
    dsimp only at h1 h2
    obtain rfl := Except.error.inj h1
    rw [← h2]
    exact ⟨rfl, rfl, rfl⟩
  · simp only [sync] at h
    split at h
    · simp [Prod.ext_iff] at h
    · split at h
      · simp [Prod.ext_iff] at h
      · split at h
        · rw [Prod.ext_iff] at h
          obtain ⟨h1, h2⟩ := h
          dsimp only at h1 h2
          obtain rfl := Except.error.inj h1
          rw [← h2]
          exact ⟨rfl, rfl, rfl⟩
        · simp [Prod.ext_iff] at h

/-- Witness for C6: a cycle whose fetch throws `"boom"` from a fresh
syncer state. -/
theorem c6_witness :
    errSt.syncedTimestamps = syncSt0.syncedTimestamps ∧
    errSt.stats.errors = syncSt0.stats.errors + 1 ∧
    errSt.stats.lastError = some "boom" :=
  c6_cycle_error_preserves_dedup 0 (.error "boom") uploadOk 12 syncSt0
    errSt "boom" (by decide)

/-- Claim C7: a cycle that fetches 15 readings with pairwise-distinct
fresh timestamps, against an empty dedup set and a maximum batch size of
12, with the upload accepting the batch (reporting the batch length, as
`DexcomClient.uploadReadings` does on success), uploads exactly the first
12 readings — the most recent, the fetched list being newest-first —
reports 3 skipped, and leaves the dedup set holding exactly the 12
uploaded readings' timestamps. -/
theorem c7_batch_cap_scenario (now : Int) (readings : List Reading)
    (upload : List Reading → Except String UploadResult) (st : SyncerState)
    (hlen : readings.length = 15)
    (hnodup : (readings.map Reading.timestamp).Nodup)
    (hempty : st.syncedTimestamps = [])
    (hupload : ∀ b, upload b = .ok { uploaded := b.length, skipped := 0 })
    (hfresh : ∀ r ∈ readings, ¬ r.timestamp < now - 86400000) :
    (sync now (.ok readings) upload 12 st).1
      = .ok { synced := 12, skipped := 3 } ∧
    (sync now (.ok readings) upload 12 st).2.syncedTimestamps
      = (readings.take 12).map Reading.timestamp := by
  obtain ⟨ts0, stats0⟩ := st
  simp only at hempty
  subst hempty
  have h1 : ¬ readings.length = 0 := by omega
  have hfilter :
      readings.filter (fun r => !(List.contains ([] : List Int) r.timestamp))
        = readings :=
    List.filter_eq_self.mpr (fun a _ => rfl)
  have hlen_take : (readings.take 12).length = 12 := by
    rw [List.length_take]; omega
  have h2 : ¬ (readings.take 12).length = 0 := by omega
  have hnd_take : ((readings.take 12).map Reading.timestamp).Nodup := by
    rw [List.map_take]
    exact hnodup.sublist (List.take_sublist 12 _)
  have hfold :
      (readings.take 12).foldl (fun s r => setAdd s r.timestamp) []
        = (readings.take 12).map Reading.timestamp := by
    simpa using
      foldl_setAdd_eq (readings.take 12) []
        (fun r _ => List.not_mem_nil _) hnd_take
  have hclean :
      cleanupSyncedTimestamps now ((readings.take 12).map Reading.timestamp)
        = (readings.take 12).map Reading.timestamp := by
    apply List.filter_eq_self.mpr
    intro x hx
    obtain ⟨r, hr, rfl⟩ := List.mem_map.mp hx
    simpa using hfresh r (List.mem_of_mem_take hr)
  have hup : upload (readings.take 12)
      = .ok { uploaded := 12, skipped := 0 } := by
    rw [hupload, hlen_take]
  simp only [sync, hfilter, if_neg h1, if_neg h2, hup, hfold, hclean,
    hlen, hlen_take]
  exact ⟨rfl, rfl⟩

/-- Witness for C7: fifteen concrete fresh readings, empty dedup set,
accepting upload. -/
theorem c7_witness :
    (sync 1500 (.ok fifteenReadings) uploadOk 12 syncSt0).1
      = .ok { synced := 12, skipped := 3 } ∧
    (sync 1500 (.ok fifteenReadings) uploadOk 12 syncSt0).2.syncedTimestamps
      = (fifteenReadings.take 12).map Reading.timestamp :=
  c7_batch_cap_scenario 1500 fifteenReadings uploadOk syncSt0
    (by decide) (by decide) rfl (fun b => rfl) (by decide)

end Lib2Dex
